import Mathlib

/-!
Shallow embedding of `src/lib/scroll-animation.ts`: a small utility module
that observes elements matched by a CSS selector with an
`IntersectionObserver` and adds a CSS class to each element when it
intersects the viewport.

Modelling choices:
- The browser platform is a record `Platform` carrying the two environment
  flags the code checks (`typeof window`, `typeof IntersectionObserver`)
  and the selector engine `document.querySelectorAll`, which either throws
  a `SyntaxError`-class condition on a malformed selector (modelled as
  `Except.error`) or returns the list of matched elements (element ids).
- DOM side effects of registration are made explicit as an `DomAction` trace
  (observer creation, the selector query, each `observe` registration).
- The observer callback is a pure state transformer on `CallbackState`
  (class lists of all elements plus the set of element ids still observed
  by this observer); `entries.forEach` becomes a left fold over the
  delivered entries.
- TS `number` is modelled as `ℚ`; no arithmetic is ever performed on the
  threshold, it is only forwarded.
-/

/-- Error raised by the platform selector engine on a malformed selector
(a `SyntaxError`-class condition). -/
structure SelectorError where
  message : String
deriving DecidableEq, Repr

/-- The browser environment as seen by the module: the two existence checks
it performs and the selector engine it delegates to. -/
structure Platform where
  windowDefined : Bool
  intersectionObserverDefined : Bool
  querySelectorAll : String → Except SelectorError (List Nat)

/-- `ScrollAnimationOptions` from the source: every field optional. -/
structure ScrollAnimationOptions where
  threshold : Option ℚ := none
  rootMargin : Option String := none
  visibleClass : Option String := none
  once : Option Bool := none
deriving DecidableEq, Repr

/-- The effective configuration after destructuring with defaults. -/
structure ResolvedOptions where
  threshold : ℚ
  rootMargin : String
  visibleClass : String
  once : Bool
deriving DecidableEq, Repr

/-- The destructuring-with-defaults at the top of `observeScrollAnimations`:
`threshold = 0.2`, `rootMargin = '0px 0px -50px 0px'`,
`visibleClass = 'visible'`, `once = true`. -/
def resolveOptions (options : ScrollAnimationOptions) : ResolvedOptions :=
  { threshold := options.threshold.getD (0.2 : ℚ)
    rootMargin := options.rootMargin.getD "0px 0px -50px 0px"
    visibleClass := options.visibleClass.getD "visible"
    once := options.once.getD true }

/-- The `IntersectionObserver` instance returned by `observeScrollAnimations`:
the options forwarded to its constructor (`threshold`, `rootMargin`), the
configuration captured by its callback closure (`visibleClass`, `once`),
and the set of element ids currently registered with it. -/
structure Observer where
  threshold : ℚ
  rootMargin : String
  visibleClass : String
  once : Bool
  observed : List Nat
deriving DecidableEq, Repr

/-- One observable DOM side effect of a registration call. -/
inductive DomAction where
  | createObserver (threshold : ℚ) (rootMargin : String)
  | query (selector : String)
  | observe (el : Nat)
deriving DecidableEq, Repr

/-- `observeScrollAnimations(selector, options)`: resolves the options,
returns `null` (here `none`) when `window` or `IntersectionObserver` is
undefined, otherwise creates one observer, queries the document and
registers every matched element, returning the observer together with the
trace of DOM side effects performed. A malformed selector makes the
platform engine throw; the exception propagates (`Except.error`). -/
def observeScrollAnimations (p : Platform) (selector : String)
    (options : ScrollAnimationOptions := {}) :
    Except SelectorError (Option Observer × List DomAction) :=
  let r := resolveOptions options
  if !p.windowDefined || !p.intersectionObserverDefined then
    .ok (none, [])
  else
    match p.querySelectorAll selector with
    | .error err => .error err
    | .ok elems =>
        .ok (some { threshold := r.threshold, rootMargin := r.rootMargin
                    visibleClass := r.visibleClass, once := r.once
                    observed := elems },
             DomAction.createObserver r.threshold r.rootMargin ::
               DomAction.query selector :: elems.map DomAction.observe)

/-- One entry configuration of `observeMultiple`: `{ selector, options? }`. -/
structure ObserveConfig where
  selector : String
  options : Option ScrollAnimationOptions := none
deriving DecidableEq, Repr

/-- JS `Array.prototype.map` over a throwing function: applies `f` left to
right and propagates the first exception. -/
def mapExcept (f : α → Except ε β) : List α → Except ε (List β)
  | [] => .ok []
  | x :: xs => do
    let y ← f x
    let ys ← mapExcept f xs
    pure (y :: ys)

/-- `observeMultiple(configs)`: maps `observeScrollAnimations` over the
entries in input order, then filters out the `null` results, keeping the
surviving handles in input order; the traces accumulate in call order. -/
def observeMultiple (p : Platform) (configs : List ObserveConfig) :
    Except SelectorError (List Observer × List DomAction) := do
  let results ← mapExcept
    (fun c => observeScrollAnimations p c.selector (c.options.getD {})) configs
  pure ((results.map Prod.fst).filterMap id, (results.map Prod.snd).flatten)

/-- `element.classList.add c`: a no-op when `c` is already present,
otherwise appends `c`. -/
def classListAdd (classes : List String) (c : String) : List String :=
  if c ∈ classes then classes else classes ++ [c]

/-- One `IntersectionObserverEntry` as used by the callback: its target
element id and its `isIntersecting` flag. -/
structure Entry where
  target : Nat
  isIntersecting : Bool
deriving DecidableEq, Repr

/-- The state the observer callback acts on: the class list of every DOM
element (by element id) and the element ids still observed. -/
structure CallbackState where
  dom : Nat → List String
  observed : List Nat

/-- The body of the `entries.forEach` arrow function: if the entry is
intersecting, add `visibleClass` to its target class list and, when `once`,
unobserve that target; otherwise do nothing. -/
def processEntry (cfg : ResolvedOptions) (s : CallbackState) (entry : Entry) :
    CallbackState :=
  if entry.isIntersecting then
    { dom := fun i =>
        if i = entry.target then classListAdd (s.dom i) cfg.visibleClass
        else s.dom i
      observed :=
        if cfg.once then s.observed.filter (fun t => t != entry.target)
        else s.observed }
  else s

/-- The observer callback on one observation tick: iterates the delivered
entries in order. -/
def observerCallback (cfg : ResolvedOptions) (entries : List Entry)
    (s : CallbackState) : CallbackState :=
  entries.foldl (processEntry cfg) s

/-- A sequence of observation ticks delivered to the same callback. -/
def runTicks (cfg : ResolvedOptions) (ticks : List (List Entry))
    (s : CallbackState) : CallbackState :=
  ticks.foldl (fun st es => observerCallback cfg es st) s

/-- Sample selector engine for concrete witnesses: one malformed selector,
one selector matching nothing, and two selectors matching elements. -/
def sampleQuery (s : String) : Except SelectorError (List Nat) :=
  if s = "bad[" then .error ⟨"invalid selector"⟩
  else if s = ".none" then .ok []
  else if s = ".b" then .ok [4, 5]
  else .ok [1, 2, 3]

/-- A fully supported browser platform. -/
def pSupported : Platform :=
  ⟨true, true, sampleQuery⟩

/-- A platform without a `window` object (e.g. server-side rendering). -/
def pNoWindow : Platform :=
  ⟨false, true, sampleQuery⟩

/-- A platform with a `window` but no `IntersectionObserver`. -/
def pNoObserver : Platform :=
  ⟨true, false, sampleQuery⟩

/-- Sample callback state for witnesses: empty class lists, elements 7 and 8
observed. -/
def sampleState : CallbackState :=
  ⟨fun _ => [], [7, 8]⟩

/-! ### Helper lemmas about the callback state transformer -/

theorem mem_classListAdd_self (l : List String) (c : String) :
    c ∈ classListAdd l c := by
  unfold classListAdd
  split
  · assumption
  · exact List.mem_append_right _ (List.mem_singleton.mpr rfl)

theorem classListAdd_of_mem {l : List String} {c : String} (h : c ∈ l) :
    classListAdd l c = l := by
  simp [classListAdd, h]

theorem mem_classListAdd_of_mem {l : List String} {c : String} (d : String)
    (h : c ∈ l) : c ∈ classListAdd l d := by
  unfold classListAdd
  split
  · exact h
  · exact List.mem_append_left _ h

theorem processEntry_dom_mono (cfg : ResolvedOptions) (s : CallbackState)
    (e : Entry) {c : String} {i : Nat} (h : c ∈ s.dom i) :
    c ∈ (processEntry cfg s e).dom i := by
  unfold processEntry
  by_cases hI : e.isIntersecting
  · simp only [hI, if_true]
    by_cases ht : i = e.target
    · simp only [ht, if_true]
      exact mem_classListAdd_of_mem _ (ht ▸ h)
    · simp only [ht, if_false]
      exact h
  · simp only [hI, Bool.false_eq_true, if_false]
    exact h

theorem observerCallback_dom_mono (cfg : ResolvedOptions) :
    ∀ (entries : List Entry) (s : CallbackState) {c : String} {i : Nat},
      c ∈ s.dom i → c ∈ (observerCallback cfg entries s).dom i := by
  intro entries
  induction entries with
  | nil => intro s c i h; exact h
  | cons e rest ih =>
      intro s c i h
      exact ih (processEntry cfg s e) (processEntry_dom_mono cfg s e h)

theorem runTicks_dom_mono (cfg : ResolvedOptions) :
    ∀ (ticks : List (List Entry)) (s : CallbackState) {c : String} {i : Nat},
      c ∈ s.dom i → c ∈ (runTicks cfg ticks s).dom i := by
  intro ticks
  induction ticks with
  | nil => intro s c i h; exact h
  | cons es rest ih =>
      intro s c i h
      exact ih (observerCallback cfg es s) (observerCallback_dom_mono cfg es s h)

theorem processEntry_observed_not_mem (cfg : ResolvedOptions)
    (s : CallbackState) (e : Entry) {t : Nat} (h : t ∉ s.observed) :
    t ∉ (processEntry cfg s e).observed := by
  unfold processEntry
  by_cases hI : e.isIntersecting
  · simp only [hI, if_true]
    by_cases ho : cfg.once
    · simp only [ho, if_true]
      intro hmem
      exact h (List.mem_of_mem_filter hmem)
    · simp only [ho, Bool.false_eq_true, if_false]
      exact h
  · simp only [hI, Bool.false_eq_true, if_false]
    exact h

theorem observerCallback_observed_not_mem (cfg : ResolvedOptions) :
    ∀ (entries : List Entry) (s : CallbackState) {t : Nat},
      t ∉ s.observed → t ∉ (observerCallback cfg entries s).observed := by
  intro entries
  induction entries with
  | nil => intro s t h; exact h
  | cons e rest ih =>
      intro s t h
      exact ih (processEntry cfg s e) (processEntry_observed_not_mem cfg s e h)

theorem processEntry_unobserves (cfg : ResolvedOptions) (s : CallbackState)
    (e : Entry) (hI : e.isIntersecting = true) (ho : cfg.once = true) :
    e.target ∉ (processEntry cfg s e).observed := by
  unfold processEntry
  simp only [hI, if_true, ho]
  intro hmem
  have := List.of_mem_filter hmem
  simp at this

theorem processEntry_adds_class (cfg : ResolvedOptions) (s : CallbackState)
    (e : Entry) (hI : e.isIntersecting = true) :
    cfg.visibleClass ∈ (processEntry cfg s e).dom e.target := by
  unfold processEntry
  simp only [hI, if_true]
  exact mem_classListAdd_self _ _

theorem observerCallback_mem_class (cfg : ResolvedOptions) :
    ∀ (entries : List Entry) (s : CallbackState) (e : Entry),
      e ∈ entries → e.isIntersecting = true →
      cfg.visibleClass ∈ (observerCallback cfg entries s).dom e.target := by
  intro entries
  induction entries with
  | nil => intro s e he; exact absurd he (List.not_mem_nil e)
  | cons x rest ih =>
      intro s e he hI
      rcases List.mem_cons.mp he with rfl | hrest
      · exact observerCallback_dom_mono cfg rest (processEntry cfg s e)
          (processEntry_adds_class cfg s e hI)
      · exact ih (processEntry cfg s x) e hrest hI

theorem observerCallback_unobserved (cfg : ResolvedOptions)
    (ho : cfg.once = true) :
    ∀ (entries : List Entry) (s : CallbackState) (e : Entry),
      e ∈ entries → e.isIntersecting = true →
      e.target ∉ (observerCallback cfg entries s).observed := by
  intro entries
  induction entries with
  | nil => intro s e he; exact absurd he (List.not_mem_nil e)
  | cons x rest ih =>
      intro s e he hI
      rcases List.mem_cons.mp he with rfl | hrest
      · exact observerCallback_observed_not_mem cfg rest (processEntry cfg s e)
          (processEntry_unobserves cfg s e hI ho)
      · exact ih (processEntry cfg s x) e hrest hI

theorem processEntry_not_intersecting (cfg : ResolvedOptions)
    (s : CallbackState) (e : Entry) (hI : e.isIntersecting = false) :
    processEntry cfg s e = s := by
  unfold processEntry
  simp [hI]

theorem processEntry_observed_once_false (cfg : ResolvedOptions)
    (s : CallbackState) (e : Entry) (ho : cfg.once = false) :
    (processEntry cfg s e).observed = s.observed := by
  unfold processEntry
  by_cases hI : e.isIntersecting
  · simp [hI, ho]
  · simp [hI]

theorem observerCallback_observed_once_false (cfg : ResolvedOptions)
    (ho : cfg.once = false) :
    ∀ (entries : List Entry) (s : CallbackState),
      (observerCallback cfg entries s).observed = s.observed := by
  intro entries
  induction entries with
  | nil => intro s; rfl
  | cons e rest ih =>
      intro s
      calc (observerCallback cfg rest (processEntry cfg s e)).observed
          = (processEntry cfg s e).observed := ih (processEntry cfg s e)
        _ = s.observed := processEntry_observed_once_false cfg s e ho

theorem observerCallback_all_not_intersecting (cfg : ResolvedOptions) :
    ∀ (entries : List Entry) (s : CallbackState),
      (∀ e ∈ entries, e.isIntersecting = false) →
      observerCallback cfg entries s = s := by
  intro entries
  induction entries with
  | nil => intro s _; rfl
  | cons e rest ih =>
      intro s h
      have he : e.isIntersecting = false := h e (List.mem_cons_self e rest)
      calc observerCallback cfg (e :: rest) s
          = observerCallback cfg rest (processEntry cfg s e) := rfl
        _ = observerCallback cfg rest s := by
              rw [processEntry_not_intersecting cfg s e he]
        _ = s := ih s (fun x hx => h x (List.mem_cons_of_mem e hx))

theorem mapExcept_ok {α β ε : Type} (f : α → Except ε β) :
    ∀ {xs : List α} {rs : List β},
      List.Forall₂ (fun x r => f x = .ok r) xs rs →
      mapExcept f xs = .ok rs := by
  intro xs
  induction xs with
  | nil =>
      intro rs h
      cases h
      rfl
  | cons x xt ih =>
      intro rs h
      cases h with
      | cons hx ht =>
          simp only [mapExcept, hx, ih ht]
          rfl

/-! ### Claim theorems -/

/-- C1: on every observation tick, each reported intersecting entry gets the
resolved `visibleClass` added to its target's class list (an idempotent
set-add), and when the resolved `once` is true the observer unobserves that
target, so it is no longer registered after the tick. -/
theorem observeScrollAnimations_callback_adds_class
    (cfg : ResolvedOptions) (entries : List Entry) (s : CallbackState)
    (e : Entry) (he : e ∈ entries) (hI : e.isIntersecting = true) :
    cfg.visibleClass ∈ (observerCallback cfg entries s).dom e.target ∧
    (cfg.once = true → e.target ∉ (observerCallback cfg entries s).observed) ∧
    (∀ l : List String, cfg.visibleClass ∈ l →
      classListAdd l cfg.visibleClass = l) :=
  ⟨observerCallback_mem_class cfg entries s e he hI,
   fun ho => observerCallback_unobserved cfg ho entries s e he hI,
   fun _ h => classListAdd_of_mem h⟩

/-- Witness for C1 at a concrete tick: element 7 reported intersecting under
the default configuration gets class "visible" and is unobserved. -/
theorem observeScrollAnimations_callback_adds_class_witness :
    (resolveOptions {}).visibleClass ∈
      (observerCallback (resolveOptions {}) [⟨7, true⟩] sampleState).dom 7 ∧
    7 ∉ (observerCallback (resolveOptions {}) [⟨7, true⟩] sampleState).observed :=
  ⟨(observeScrollAnimations_callback_adds_class (resolveOptions {})
      [⟨7, true⟩] sampleState ⟨7, true⟩ (List.mem_singleton.mpr rfl) rfl).1,
   (observeScrollAnimations_callback_adds_class (resolveOptions {})
      [⟨7, true⟩] sampleState ⟨7, true⟩ (List.mem_singleton.mpr rfl) rfl).2.1 rfl⟩

/-- C4: every configuration field left unspecified resolves to its default
(threshold 0.2, rootMargin "0px 0px -50px 0px", visibleClass "visible",
once true) and every supplied field overrides the default. -/
theorem resolveOptions_defaults_and_overrides (o : ScrollAnimationOptions) :
    (o.threshold = none → (resolveOptions o).threshold = 0.2) ∧
    (∀ t, o.threshold = some t → (resolveOptions o).threshold = t) ∧
    (o.rootMargin = none →
      (resolveOptions o).rootMargin = "0px 0px -50px 0px") ∧
    (∀ m, o.rootMargin = some m → (resolveOptions o).rootMargin = m) ∧
    (o.visibleClass = none → (resolveOptions o).visibleClass = "visible") ∧
    (∀ c, o.visibleClass = some c → (resolveOptions o).visibleClass = c) ∧
    (o.once = none → (resolveOptions o).once = true) ∧
    (∀ b, o.once = some b → (resolveOptions o).once = b) := by
  refine ⟨fun h => ?_, fun t h => ?_, fun h => ?_, fun m h => ?_,
    fun h => ?_, fun c h => ?_, fun h => ?_, fun b h => ?_⟩ <;>
    simp [resolveOptions, h]

/-- Witness for C4: supplied threshold, visibleClass and once override the
defaults while the unspecified rootMargin falls back to its default. -/
theorem resolveOptions_defaults_and_overrides_witness :
    (resolveOptions ⟨some (3/10 : ℚ), none, some "shown", some false⟩).threshold
        = 3/10 ∧
    (resolveOptions ⟨some (3/10 : ℚ), none, some "shown", some false⟩).rootMargin
        = "0px 0px -50px 0px" ∧
    (resolveOptions ⟨some (3/10 : ℚ), none, some "shown", some false⟩).visibleClass
        = "shown" ∧
    (resolveOptions ⟨some (3/10 : ℚ), none, some "shown", some false⟩).once
        = false :=
  ⟨(resolveOptions_defaults_and_overrides _).2.1 _ rfl,
   (resolveOptions_defaults_and_overrides _).2.2.1 rfl,
   (resolveOptions_defaults_and_overrides _).2.2.2.2.2.1 _ rfl,
   (resolveOptions_defaults_and_overrides _).2.2.2.2.2.2.2 _ rfl⟩

/-- C5: the watcher never removes the class: the class lists only grow under
any callback run (and any sequence of runs); with `once` false the observed
set is unchanged by a tick and each intersecting entry has the class ensured
again; an all-non-intersecting tick leaves the state untouched. -/
theorem observerCallback_never_removes_class (cfg : ResolvedOptions)
    (s : CallbackState) (entries : List Entry) :
    (∀ c i, c ∈ s.dom i → c ∈ (observerCallback cfg entries s).dom i) ∧
    (cfg.once = false →
      (observerCallback cfg entries s).observed = s.observed) ∧
    (∀ e ∈ entries, e.isIntersecting = true →
      cfg.visibleClass ∈ (observerCallback cfg entries s).dom e.target) ∧
    ((∀ e ∈ entries, e.isIntersecting = false) →
      observerCallback cfg entries s = s) ∧
    (∀ (ticks : List (List Entry)) (c : String) (i : Nat),
      c ∈ s.dom i → c ∈ (runTicks cfg ticks s).dom i) :=
  ⟨fun _ _ h => observerCallback_dom_mono cfg entries s h,
   fun ho => observerCallback_observed_once_false cfg ho entries s,
   fun e he hI => observerCallback_mem_class cfg entries s e he hI,
   observerCallback_all_not_intersecting cfg entries s,
   fun ticks _ _ h => runTicks_dom_mono cfg ticks s h⟩

/-- Witness for C5 with `once := false`: after a tick reporting element 7
intersecting, element 7 is still observed (the observed set is unchanged)
and carries the class. -/
theorem observerCallback_never_removes_class_witness :
    (observerCallback (resolveOptions ⟨none, none, none, some false⟩)
        [⟨7, true⟩] sampleState).observed = sampleState.observed ∧
    (resolveOptions ⟨none, none, none, some false⟩).visibleClass ∈
      (observerCallback (resolveOptions ⟨none, none, none, some false⟩)
        [⟨7, true⟩] sampleState).dom 7 :=
  ⟨(observerCallback_never_removes_class
      (resolveOptions ⟨none, none, none, some false⟩) sampleState
      [⟨7, true⟩]).2.1 rfl,
   (observerCallback_never_removes_class
      (resolveOptions ⟨none, none, none, some false⟩) sampleState
      [⟨7, true⟩]).2.2.1 ⟨7, true⟩ (List.mem_singleton.mpr rfl) rfl⟩

/-- C10: a non-intersecting entry has no effect at all, and an intersecting
entry's effects are confined to its own target: other elements' class lists
are unchanged and every other element stays registered. -/
theorem processEntry_nonintersecting_no_effect (cfg : ResolvedOptions)
    (s : CallbackState) (e : Entry) :
    (e.isIntersecting = false → processEntry cfg s e = s) ∧
    (e.isIntersecting = true → ∀ i, i ≠ e.target →
      (processEntry cfg s e).dom i = s.dom i) ∧
    (e.isIntersecting = true → ∀ t, t ≠ e.target →
      (t ∈ (processEntry cfg s e).observed ↔ t ∈ s.observed)) := by
  refine ⟨processEntry_not_intersecting cfg s e, ?_, ?_⟩
  · intro hI i hi
    simp [processEntry, hI, hi]
  · intro hI t ht
    by_cases ho : cfg.once
    · simp [processEntry, hI, ho, List.mem_filter, ht]
    · simp [processEntry, hI, ho]

/-- Witness for C10: a non-intersecting report for element 3 leaves the
state unchanged. -/
theorem processEntry_nonintersecting_no_effect_witness :
    processEntry (resolveOptions {}) sampleState ⟨3, false⟩ = sampleState :=
  (processEntry_nonintersecting_no_effect (resolveOptions {}) sampleState
    ⟨3, false⟩).1 rfl

/-- C2: in an unsupported environment (no `window` or no
`IntersectionObserver`) the call returns the absent handle and performs no
DOM action at all: nothing is created, queried, observed or mutated. -/
theorem observeScrollAnimations_unsupported_env (p : Platform) (sel : String)
    (opts : ScrollAnimationOptions)
    (h : p.windowDefined = false ∨ p.intersectionObserverDefined = false) :
    observeScrollAnimations p sel opts = .ok (none, []) := by
  rcases h with h | h <;> simp [observeScrollAnimations, h]

/-- Witness for C2 on a platform without `window`. -/
theorem observeScrollAnimations_unsupported_env_witness :
    observeScrollAnimations pNoWindow ".a" {} = .ok (none, []) :=
  observeScrollAnimations_unsupported_env pNoWindow ".a" {} (Or.inl rfl)

/-- C7: in a supported environment a malformed selector makes the platform
selector engine throw, and the error propagates unmodified to the caller
(no absent handle is returned). -/
theorem observeScrollAnimations_selector_error_propagates (p : Platform)
    (sel : String) (opts : ScrollAnimationOptions) (err : SelectorError)
    (hw : p.windowDefined = true) (hio : p.intersectionObserverDefined = true)
    (hq : p.querySelectorAll sel = .error err) :
    observeScrollAnimations p sel opts = .error err := by
  simp [observeScrollAnimations, hw, hio, hq]

/-- Witness for C7 with the sample malformed selector. -/
theorem observeScrollAnimations_selector_error_propagates_witness :
    observeScrollAnimations pSupported "bad[" {} =
      .error ⟨"invalid selector"⟩ :=
  observeScrollAnimations_selector_error_propagates pSupported "bad[" {}
    ⟨"invalid selector"⟩ rfl rfl rfl

/-- C8: in a supported environment a valid selector matching zero elements
still yields a non-absent handle: the observer is created and returned with
an empty observation set. -/
theorem observeScrollAnimations_zero_matches (p : Platform) (sel : String)
    (opts : ScrollAnimationOptions)
    (hw : p.windowDefined = true) (hio : p.intersectionObserverDefined = true)
    (hq : p.querySelectorAll sel = .ok []) :
    observeScrollAnimations p sel opts =
      .ok (some { threshold := (resolveOptions opts).threshold
                  rootMargin := (resolveOptions opts).rootMargin
                  visibleClass := (resolveOptions opts).visibleClass
                  once := (resolveOptions opts).once
                  observed := [] },
           [DomAction.createObserver (resolveOptions opts).threshold
              (resolveOptions opts).rootMargin,
            DomAction.query sel]) := by
  simp [observeScrollAnimations, hw, hio, hq]

/-- Witness for C8 with the sample selector matching zero elements. -/
theorem observeScrollAnimations_zero_matches_witness :
    observeScrollAnimations pSupported ".none" {} =
      .ok (some { threshold := (resolveOptions {}).threshold
                  rootMargin := (resolveOptions {}).rootMargin
                  visibleClass := (resolveOptions {}).visibleClass
                  once := (resolveOptions {}).once
                  observed := [] },
           [DomAction.createObserver (resolveOptions {}).threshold
              (resolveOptions {}).rootMargin,
            DomAction.query ".none"]) :=
  observeScrollAnimations_zero_matches pSupported ".none" {} rfl rfl rfl

/-- C9: the environment check precedes the selector query: in an
unsupported environment the call returns the absent handle even when the
selector is malformed (the engine would throw), so no error is ever
raised there. -/
theorem observeScrollAnimations_env_check_precedes_query (p : Platform)
    (sel : String) (opts : ScrollAnimationOptions) (err : SelectorError)
    (h : p.windowDefined = false ∨ p.intersectionObserverDefined = false)
    (_hm : p.querySelectorAll sel = .error err) :
    observeScrollAnimations p sel opts = .ok (none, []) ∧
    ∀ e2 : SelectorError, observeScrollAnimations p sel opts ≠ .error e2 := by
  have h1 : observeScrollAnimations p sel opts = .ok (none, []) := by
    rcases h with h | h <;> simp [observeScrollAnimations, h]
  refine ⟨h1, fun e2 hcontra => ?_⟩
  rw [h1] at hcontra
  exact Except.noConfusion hcontra

/-- Witness for C9: a malformed selector on a platform lacking
`IntersectionObserver` yields the absent handle and no error. -/
theorem observeScrollAnimations_env_check_precedes_query_witness :
    observeScrollAnimations pNoObserver "bad[" {} = .ok (none, []) ∧
    observeScrollAnimations pNoObserver "bad[" {} ≠
      .error ⟨"invalid selector"⟩ :=
  ⟨(observeScrollAnimations_env_check_precedes_query pNoObserver "bad[" {}
      ⟨"invalid selector"⟩ (Or.inr rfl) rfl).1,
   (observeScrollAnimations_env_check_precedes_query pNoObserver "bad[" {}
      ⟨"invalid selector"⟩ (Or.inr rfl) rfl).2 ⟨"invalid selector"⟩⟩

/-- C6: in a supported environment the resolved `threshold` and
`rootMargin` are forwarded unmodified to the observer options, exactly one
observer is created, and every matched element is registered on that one
returned observer. -/
theorem observeScrollAnimations_forwards_options (p : Platform) (sel : String)
    (opts : ScrollAnimationOptions) (elems : List Nat)
    (hw : p.windowDefined = true) (hio : p.intersectionObserverDefined = true)
    (hq : p.querySelectorAll sel = .ok elems) :
    observeScrollAnimations p sel opts =
      .ok (some { threshold := (resolveOptions opts).threshold
                  rootMargin := (resolveOptions opts).rootMargin
                  visibleClass := (resolveOptions opts).visibleClass
                  once := (resolveOptions opts).once
                  observed := elems },
           DomAction.createObserver (resolveOptions opts).threshold
               (resolveOptions opts).rootMargin ::
             DomAction.query sel :: elems.map DomAction.observe) ∧
    (DomAction.createObserver (resolveOptions opts).threshold
         (resolveOptions opts).rootMargin ::
       DomAction.query sel :: elems.map DomAction.observe).countP
      (fun a => match a with
        | DomAction.createObserver _ _ => true
        | _ => false) = 1 ∧
    ∀ el ∈ elems,
      DomAction.observe el ∈
        DomAction.createObserver (resolveOptions opts).threshold
            (resolveOptions opts).rootMargin ::
          DomAction.query sel :: elems.map DomAction.observe := by
  refine ⟨by simp [observeScrollAnimations, hw, hio, hq], ?_, ?_⟩
  · have hz : List.countP
        (fun a => match a with
          | DomAction.createObserver _ _ => true
          | _ => false) (elems.map DomAction.observe) = 0 := by
      rw [List.countP_eq_zero]
      intro a ha
      rcases List.mem_map.mp ha with ⟨x, _, rfl⟩
      simp
    simp [List.countP_cons, hz]
  · intro el hel
    exact List.mem_cons_of_mem _
      (List.mem_cons_of_mem _ (List.mem_map_of_mem DomAction.observe hel))

/-- Witness for C6: the default configuration against the sample selector
matching elements 1, 2, 3. -/
theorem observeScrollAnimations_forwards_options_witness :
    observeScrollAnimations pSupported ".a" {} =
      .ok (some { threshold := (resolveOptions {}).threshold
                  rootMargin := (resolveOptions {}).rootMargin
                  visibleClass := (resolveOptions {}).visibleClass
                  once := (resolveOptions {}).once
                  observed := [1, 2, 3] },
           DomAction.createObserver (resolveOptions {}).threshold
               (resolveOptions {}).rootMargin ::
             DomAction.query ".a" :: [1, 2, 3].map DomAction.observe) ∧
    DomAction.observe 2 ∈
      DomAction.createObserver (resolveOptions {}).threshold
          (resolveOptions {}).rootMargin ::
        DomAction.query ".a" :: [1, 2, 3].map DomAction.observe :=
  ⟨(observeScrollAnimations_forwards_options pSupported ".a" {} [1, 2, 3]
      rfl rfl rfl).1,
   (observeScrollAnimations_forwards_options pSupported ".a" {} [1, 2, 3]
      rfl rfl rfl).2.2 2 (by decide)⟩

/-- C3: `observeMultiple` applies `observeScrollAnimations` to each entry in
input order (one result per entry, each determined by its own entry alone)
and then removes exactly the absent results with a stable filter; in
particular a result row `[some hA, none, some hC]` filters to `[hA, hC]`. -/
theorem observeMultiple_stable_filter (p : Platform)
    (configs : List ObserveConfig)
    (results : List (Option Observer × List DomAction))
    (h : List.Forall₂ (fun c r =>
      observeScrollAnimations p c.selector (c.options.getD {}) = .ok r)
      configs results) :
    observeMultiple p configs =
      .ok ((results.map Prod.fst).filterMap id,
           (results.map Prod.snd).flatten) ∧
    ∀ (hA hC : Observer),
      (([some hA, none, some hC] : List (Option Observer)).filterMap id)
        = [hA, hC] := by
  constructor
  · have hm := mapExcept_ok
      (fun c : ObserveConfig =>
        observeScrollAnimations p c.selector (c.options.getD {})) h
    simp [observeMultiple, hm]
  · intro hA hC
    rfl

/-- Witness for C3: two supported entries produce their two handles in input
order, with the traces accumulated in call order. -/
theorem observeMultiple_stable_filter_witness :
    observeMultiple pSupported [⟨".a", none⟩, ⟨".b", none⟩] =
      .ok ([{ threshold := (resolveOptions {}).threshold
              rootMargin := (resolveOptions {}).rootMargin
              visibleClass := (resolveOptions {}).visibleClass
              once := (resolveOptions {}).once
              observed := [1, 2, 3] },
            { threshold := (resolveOptions {}).threshold
              rootMargin := (resolveOptions {}).rootMargin
              visibleClass := (resolveOptions {}).visibleClass
              once := (resolveOptions {}).once
              observed := [4, 5] }],
           [DomAction.createObserver (resolveOptions {}).threshold
              (resolveOptions {}).rootMargin,
            DomAction.query ".a",
            DomAction.observe 1, DomAction.observe 2, DomAction.observe 3,
            DomAction.createObserver (resolveOptions {}).threshold
              (resolveOptions {}).rootMargin,
            DomAction.query ".b",
            DomAction.observe 4, DomAction.observe 5]) :=
  (observeMultiple_stable_filter pSupported [⟨".a", none⟩, ⟨".b", none⟩]
    [(some ⟨(resolveOptions {}).threshold, (resolveOptions {}).rootMargin,
        (resolveOptions {}).visibleClass, (resolveOptions {}).once,
        [1, 2, 3]⟩,
      [DomAction.createObserver (resolveOptions {}).threshold
         (resolveOptions {}).rootMargin,
       DomAction.query ".a",
       DomAction.observe 1, DomAction.observe 2, DomAction.observe 3]),
     (some ⟨(resolveOptions {}).threshold, (resolveOptions {}).rootMargin,
        (resolveOptions {}).visibleClass, (resolveOptions {}).once,
        [4, 5]⟩,
      [DomAction.createObserver (resolveOptions {}).threshold
         (resolveOptions {}).rootMargin,
       DomAction.query ".b",
       DomAction.observe 4, DomAction.observe 5])]
    (List.Forall₂.cons rfl (List.Forall₂.cons rfl List.Forall₂.nil))).1
